import Mathlib

/-! EasyCue control panel (`src/main.js`): status polling and its display projection.

A shallow embedding of the four handlers of `src/main.js` (`updateStatus`,
`handleStart`, `handleStop`, `handleCopy`) and of the module's top-level
statements, as functions on an explicit state that holds what the script reads
and writes: the global `currentStatus`, the global `event`, the document
elements it touches, the bridge calls it issues, the alerts and console entries
it produces and the timers it schedules.

Each `async` handler has exactly one `await`, on a bridge call `invoke(...)`,
and writes nothing before it.  A handler is therefore embedded in two parts:
the call (`updateStatusCall`, `handleStartCall`, ...), which issues the bridge
call, and the continuation (`updateStatus`, `handleStart`, ...), a function of
the way that call settles (`Except`: rejected with a payload, or resolved with
a value) and of the state at the moment the continuation runs; the continuation
is synchronous, so it is one atomic state change.
-/

namespace EasyCue

/-! ## Values crossing the bridge -/

/-- Values that a bridge call resolves or rejects with (what JSON can carry).
A number is kept as the two observations the script can make of it: whether it
is falsy (zero) and its decimal rendering.  An object is the list of its own
properties in source order, as `JSON.parse` builds it (its prototype is the
standard one). -/
inductive JsValue where
  | null
  | bool (b : Bool)
  | num (falsy : Bool) (text : String)
  | str (s : String)
  | arr (items : List JsValue)
  | obj (fields : List (String × JsValue))

/-- What can be thrown while the script runs: the payload of a rejected bridge
call, the `TypeError` raised by reading property `property` of `base` (`null`
or `undefined`), and the `TypeError` raised when an object cannot be converted
to a primitive value. -/
inductive Thrown where
  | rejected (payload : JsValue)
  | cannotRead (base : String) (property : String)
  | cannotConvert

/-- What the embedding takes from the JavaScript engine: the result of
`String.prototype.toLowerCase` on a string that has a character outside the
Basic Latin block (the Unicode case tables), and the wording of the messages
of the two `TypeError`s. -/
structure Engine where
  unicodeLower : String → String
  cannotReadMessage : String → String → String
  cannotConvertMessage : String

/-- Whether the property list of an object has a property called `name`. -/
def hasOwn (name : String) (fields : List (String × JsValue)) : Bool :=
  fields.any fun kv => kv.1 == name

mutual
/-- String conversion as performed by `'...' + value`; `none` when the
conversion throws.  An object converts through the inherited `toString`, giving
`[object Object]`, unless it has an own property `toString`: that property
holds JSON data, which is not callable, and the conversion throws. -/
def JsValue.toStr : JsValue → Option String
  | .null => some "null"
  | .bool b => some (if b then "true" else "false")
  | .num _ text => some text
  | .str s => some s
  | .arr items => JsValue.joinItems items
  | .obj fields => if hasOwn "toString" fields then none else some "[object Object]"
/-- The comma-joined rendering of array elements (`Array.prototype.join`); a
`null` element renders as the empty string. -/
def JsValue.joinItems : List JsValue → Option String
  | [] => some ""
  | [.null] => some ""
  | [x] => JsValue.toStr x
  | .null :: xs => (JsValue.joinItems xs).map fun rest => "," ++ rest
  | x :: xs =>
    (JsValue.toStr x).bind fun first =>
    (JsValue.joinItems xs).map fun rest => first ++ "," ++ rest
end

/-- String conversion of a caught value: a rejection payload converts as a
value, a `TypeError` as `TypeError: ` followed by its message. -/
def Thrown.toStr (js : Engine) : Thrown → Option String
  | .rejected payload => payload.toStr
  | .cannotRead base property => some ("TypeError: " ++ js.cannotReadMessage base property)
  | .cannotConvert => some ("TypeError: " ++ js.cannotConvertMessage)

/-- Truthiness of the result of a property read (`none` is `undefined`). -/
def truthy : Option JsValue → Bool
  | none => false
  | some .null => false
  | some (.bool b) => b
  | some (.num falsy _) => !falsy
  | some (.str s) => s != ""
  | some (.arr _) => true
  | some (.obj _) => true

/-- The read `status.name` for one of the tag names `Stopped`, `Running`,
`Starting`, `Stopping`: it throws on `null`, finds the (last) property of that
name on an object, and is `undefined` on every other value, none of whose
prototypes defines these names. -/
def getProp (status : JsValue) (name : String) : Except Thrown (Option JsValue) :=
  match status with
  | .null => .error (.cannotRead "null" name)
  | .obj fields => .ok ((fields.reverse.find? (fun kv => kv.1 == name)).map Prod.snd)
  | _ => .ok none

/-- Lower-casing of one character of the Basic Latin block. -/
def toLowerChar (c : Char) : Char :=
  if 65 ≤ c.toNat ∧ c.toNat ≤ 90 then Char.ofNat (c.toNat + 32) else c

/-- Upper-casing of one character of the Basic Latin block. -/
def toUpperChar (c : Char) : Char :=
  if 97 ≤ c.toNat ∧ c.toNat ≤ 122 then Char.ofNat (c.toNat - 32) else c

/-- The method `String.prototype.toLowerCase`: on a string of the Basic Latin
block the letters `A`–`Z` become `a`–`z` and nothing else changes; on any other
string the result is the engine's. -/
def toLowerCase (js : Engine) (s : String) : String :=
  if s.data.all (fun c => decide (c.toNat < 128)) then String.mk (s.data.map toLowerChar)
  else js.unicodeLower s

/-- The normalisation expression of `updateStatus` (lines 8–12): the value that
is about to be assigned to `currentStatus`, or what evaluating it throws. -/
def normalizeStatus (js : Engine) (status : JsValue) : Except Thrown String :=
  match status with
  | .str s => .ok (toLowerCase js s)
  | _ =>
    (getProp status "Stopped").bind fun stopped =>
    if truthy stopped then .ok "stopped" else
    (getProp status "Running").bind fun running =>
    if truthy running then .ok "running" else
    (getProp status "Starting").bind fun starting =>
    if truthy starting then .ok "starting" else
    (getProp status "Stopping").bind fun stopping =>
    if truthy stopping then .ok "stopping" else .ok "stopped"

/-! ## The document -/

/-- The elements the script refers to: the five it looks up by id and any other
element of the page (an event target). -/
inductive ElemId where
  | statusDot
  | statusText
  | startBtn
  | stopBtn
  | address
  | other (id : String)
  deriving DecidableEq, Repr

/-- The attributes of an element that the script reads or writes.  `classList`
is the ordered token set of the `class` attribute. -/
structure Element where
  classList : List String
  textContent : String
  disabled : Bool
  deriving DecidableEq, Repr

/-- The document: every element with its current attributes. -/
abbrev Dom := ElemId → Element

/-- Apply `f` to the element `id`, leaving every other element alone. -/
def Dom.modify (dom : Dom) (id : ElemId) (f : Element → Element) : Dom :=
  fun j => if j = id then f (dom j) else dom j

/-- The assignment `el.className = name` for a single class name. -/
def setClassName (name : String) (e : Element) : Element :=
  { e with classList := [name] }

/-- The call `el.classList.add(token)`. -/
def classListAdd (token : String) (e : Element) : Element :=
  { e with classList := if token ∈ e.classList then e.classList else e.classList ++ [token] }

/-- The assignment `el.textContent = text`. -/
def setTextContent (text : String) (e : Element) : Element :=
  { e with textContent := text }

/-- The assignment `el.disabled = b`. -/
def setDisabled (b : Bool) (e : Element) : Element :=
  { e with disabled := b }

/-! ## Timers and the state -/

/-- The two functions the script hands to `setTimeout` / `setInterval`:
`updateStatus` itself, and the closure of `handleCopy` that writes the captured
`originalText` back to `btn`. -/
inductive Callback where
  | updateStatus
  | restoreLabel (btn : ElemId) (originalText : String)
  deriving DecidableEq, Repr

/-- A pending timer: the time (ms) at which it fires next, its period when it
was created by `setInterval`, and its callback. -/
structure Timer where
  due : Nat
  period : Option Nat
  callback : Callback
  deriving DecidableEq, Repr

/-- Everything the script reads or writes.  `event` is the global `event`: the
target of the event being dispatched, `none` (`undefined`) outside a dispatch.
`invoked` lists the bridge calls issued, each with the time of the call;
`unhandled` lists the reasons with which a handler's own promise was rejected. -/
structure State where
  now : Nat
  currentStatus : String
  dom : Dom
  event : Option ElemId
  invoked : List (Nat × String)
  alerts : List String
  console : List (String × Thrown)
  unhandled : List Thrown
  timers : List Timer

/-- The call `setTimeout(callback, delay)`. -/
def setTimeout (callback : Callback) (delay : Nat) (st : State) : State :=
  { st with timers := st.timers ++ [⟨st.now + delay, none, callback⟩] }

/-- The call `setInterval(callback, delay)`. -/
def setInterval (callback : Callback) (delay : Nat) (st : State) : State :=
  { st with timers := st.timers ++ [⟨st.now + delay, some delay, callback⟩] }

/-- The call `alert(text)`. -/
def alert (text : String) (st : State) : State :=
  { st with alerts := st.alerts ++ [text] }

/-- The call `invoke(command)`: the bridge call is issued. -/
def invoke (command : String) (st : State) : State :=
  { st with invoked := st.invoked ++ [(st.now, command)] }

/-- An exception leaves an `async` handler: its promise is rejected with
`reason`. -/
def rejectWith (reason : Thrown) (st : State) : State :=
  { st with unhandled := st.unhandled ++ [reason] }

/-- The statement `alert(text + error)` of a `catch` clause: the concatenation
is evaluated first, and when it throws no alert is raised and the exception
leaves the handler. -/
def alertFailure (js : Engine) (text : String) (error : Thrown) (st : State) : State :=
  match error.toStr js with
  | some s => alert (text ++ s) st
  | none => rejectWith .cannotConvert st

/-! ## The handlers -/

/-- Lines 20–49 of `updateStatus`: reset the indicator class, then the
`switch` on the freshly assigned `currentStatus` (no `default` branch). -/
def renderStatus (currentStatus : String) (dom : Dom) : Dom :=
  let dom := dom.modify .statusDot (setClassName "status-dot")
  if currentStatus = "running" then
    ((((dom.modify .statusDot (classListAdd "running")).modify
      .statusText (setTextContent "运行中")).modify
      .startBtn (setDisabled true)).modify
      .stopBtn (setDisabled false)).modify
      .address (setTextContent "http://localhost:8080")
  else if currentStatus = "stopped" then
    ((((dom.modify .statusDot (classListAdd "stopped")).modify
      .statusText (setTextContent "已停止")).modify
      .startBtn (setDisabled false)).modify
      .stopBtn (setDisabled true)).modify
      .address (setTextContent "")
  else if currentStatus = "starting" then
    (((dom.modify .statusDot (classListAdd "starting")).modify
      .statusText (setTextContent "启动中...")).modify
      .startBtn (setDisabled true)).modify
      .stopBtn (setDisabled true)
  else if currentStatus = "stopping" then
    (((dom.modify .statusDot (classListAdd "starting")).modify
      .statusText (setTextContent "停止中...")).modify
      .startBtn (setDisabled true)).modify
      .stopBtn (setDisabled true)
  else dom

/-- The part of `updateStatus` before its `await` (line 7). -/
def updateStatusCall (st : State) : State :=
  invoke "get_status" st

/-- The `try` block of `updateStatus` once `invoke('get_status')` has settled
with `result`: it either completes with a new state or throws. -/
def updateStatusBody (js : Engine) (result : Except JsValue JsValue) (st : State) :
    Except Thrown State :=
  match result with
  | .error payload => .error (.rejected payload)
  | .ok status =>
    match normalizeStatus js status with
    | .error e => .error e
    | .ok cur => .ok { st with currentStatus := cur, dom := renderStatus cur st.dom }

/-- One run of `updateStatus` whose `get_status` call settles with `result`;
whatever the `try` block throws is caught and logged with `console.error`. -/
def updateStatus (js : Engine) (result : Except JsValue JsValue) (st : State) : State :=
  match updateStatusBody js result st with
  | .ok st' => st'
  | .error e => { st with console := st.console ++ [("Status update failed:", e)] }

/-- The part of `handleStart` before its `await` (line 57). -/
def handleStartCall (st : State) : State :=
  invoke "start_service" st

/-- One run of `handleStart` whose `start_service` call settles with `result`. -/
def handleStart (js : Engine) (result : Except JsValue JsValue) (st : State) : State :=
  match result with
  | .ok _ => setTimeout .updateStatus 500 st
  | .error e => alertFailure js "启动失败: " (.rejected e) st

/-- The part of `handleStop` before its `await` (line 66). -/
def handleStopCall (st : State) : State :=
  invoke "stop_service" st

/-- One run of `handleStop` whose `stop_service` call settles with `result`. -/
def handleStop (js : Engine) (result : Except JsValue JsValue) (st : State) : State :=
  match result with
  | .ok _ => setTimeout .updateStatus 500 st
  | .error e => alertFailure js "停止失败: " (.rejected e) st

/-- The part of `handleCopy` before its `await` (line 75). -/
def handleCopyCall (st : State) : State :=
  invoke "copy_address" st

/-- One run of `handleCopy` whose `copy_address` call settles with `result`.
Line 78 reads the global `event` at the moment the continuation runs: when it
is `undefined` the read of `event.target` throws and the `catch` clause
reports it; otherwise `btn` is the target of that event. -/
def handleCopy (js : Engine) (result : Except JsValue JsValue) (st : State) : State :=
  match result with
  | .ok _ =>
    match st.event with
    | none => alertFailure js "复制失败: " (.cannotRead "undefined" "target") st
    | some btn =>
      let originalText := (st.dom btn).textContent
      let st1 := { st with dom := st.dom.modify btn (setTextContent "已复制!") }
      setTimeout (.restoreLabel btn originalText) 1000 st1
  | .error e => alertFailure js "复制失败: " (.rejected e) st

/-- The dispatch of an event with target `target` to a listener: the global
`event` denotes it while the listener runs and is restored afterwards. -/
def dispatch (target : ElemId) (listener : State → State) (st : State) : State :=
  { listener { st with event := some target } with event := st.event }

/-- The synchronous effect of calling a timer callback.  A call of
`updateStatus` only issues the bridge call; its writes happen when that call
settles and are given by `updateStatus`. -/
def Callback.run (cb : Callback) (st : State) : State :=
  match cb with
  | .updateStatus => updateStatusCall st
  | .restoreLabel btn originalText =>
    { st with dom := st.dom.modify btn (setTextContent originalText) }

/-- The pending timer `t` fires: the clock is at its due time (or later), its
callback runs, and it is dropped (one-shot) or re-armed one period later. -/
def fire (t : Timer) (st : State) : State :=
  let st1 := t.callback.run { st with now := max st.now t.due }
  match t.period with
  | none => { st1 with timers := st1.timers.erase t }
  | some p => { st1 with timers := st1.timers.replace t { t with due := t.due + p } }

/-- Time passes without any callback running. -/
def elapse (dt : Nat) (st : State) : State :=
  { st with now := st.now + dt }

/-- A sequence of `updateStatus` runs, one per settled `get_status` call. -/
def polls (js : Engine) (results : List (Except JsValue JsValue)) (st : State) : State :=
  results.foldl (fun s r => updateStatus js r s) st

/-- The state in which the script starts on a page `dom`: line 3. -/
def initialState (dom : Dom) : State :=
  { now := 0, currentStatus := "stopped", dom := dom, event := none, invoked := [],
    alerts := [], console := [], unhandled := [], timers := [] }

/-- The top-level statements of lines 90–91: arm the periodic poll, then call
`updateStatus()`, which issues its bridge call. -/
def load (st : State) : State :=
  updateStatusCall (setInterval .updateStatus 2000 st)

/-! ## Vocabulary of the properties -/

/-- The letters `a` … `z`. -/
def alphabet : List Char := "abcdefghijklmnopqrstuvwxyz".data

/-- The string `v` is an upper/lower-case variant of the lower-case word `s`:
same length, and each character is the one of `s` or its capital. -/
def CaseVariant (v s : String) : Prop :=
  List.Forall₂ (fun c d => c = d ∨ c = toUpperChar d) v.data s.data

/-- The four documented states, each with the name of its tag field. -/
def documentedStates : List (String × String) :=
  [("stopped", "Stopped"), ("running", "Running"), ("starting", "Starting"),
   ("stopping", "Stopping")]

/-- Whether the property `name` of `status` reads as a truthy value. -/
def fieldTruthy (status : JsValue) (name : String) : Bool :=
  match getProp status name with
  | .ok v => truthy v
  | .error _ => false

/-- An engine at which the theorems are instantiated: the message wording of
V8, and a `unicodeLower` that lower-cases the Basic Latin letters only (the
instances use payloads of the Basic Latin block, on which it is not consulted). -/
def sampleEngine : Engine :=
  { unicodeLower := fun s => String.mk (s.data.map toLowerChar)
    cannotReadMessage := fun base property =>
      "Cannot read properties of " ++ base ++ " (reading \x27" ++ property ++ "\x27)"
    cannotConvertMessage := "Cannot convert object to primitive value" }

/-- The copy button of the page. -/
def copyBtn : ElemId := .other "copyBtn"

/-- A page whose display shows `Stopped`; every element outside the display is
labelled like the copy button. -/
def stoppedPage : Dom := fun j =>
  match j with
  | .statusDot => ⟨["status-dot", "stopped"], "", false⟩
  | .statusText => ⟨[], "已停止", false⟩
  | .startBtn => ⟨[], "启动", false⟩
  | .stopBtn => ⟨[], "停止", true⟩
  | .address => ⟨[], "", false⟩
  | .other _ => ⟨[], "复制", false⟩

/-- The state after the script has loaded on `stoppedPage` and its first poll
has reported `Running`: the display shows Running and the periodic poll is
armed. -/
def runningState (js : Engine) : State :=
  updateStatus js (.ok (.str "Running")) (load (initialState stoppedPage))

/-- A click on the copy button in `runningState`, followed by `copy_address`
resolving with `a`: the listener calls `handleCopy()`, the dispatch ends, and
the continuation runs when the bridge call settles. -/
def copyClick (js : Engine) (a : JsValue) : State :=
  handleCopy js (.ok a) (dispatch copyBtn handleCopyCall (runningState js))

/-- The state `runningState` at a moment when the global `event` denotes a
click on the copy button. -/
def copyEventState : State :=
  { runningState sampleEngine with event := some copyBtn }

/-- First `handleCopy` run: called at time 0, its bridge call settles at once. -/
def firstCopied : State :=
  handleCopy sampleEngine (.ok (.str "http://localhost:8080")) (handleCopyCall copyEventState)

/-- Second `handleCopy` run is called 300 ms later; its bridge call is pending. -/
def secondStarted : State :=
  handleCopyCall (elapse 300 firstCopied)

/-- The timer of the first run fires at time 1000. -/
def firstRestored : State :=
  fire ⟨1000, none, .restoreLabel copyBtn "复制"⟩ secondStarted

/-- The bridge call of the second run settles at time 1200. -/
def secondCopied : State :=
  handleCopy sampleEngine (.ok (.str "http://localhost:8080")) (elapse 200 firstRestored)

/-- The periodic poll fires at time 2000 and the timer of the second run at
time 2200. -/
def secondRestored : State :=
  fire ⟨2200, none, .restoreLabel copyBtn "复制"⟩
    (fire ⟨2000, some 2000, .updateStatus⟩ secondCopied)

/-! ## Auxiliary lemmas -/

theorem toLowerChar_alphabet :
    ∀ d ∈ alphabet, toLowerChar d = d ∧ toLowerChar (toUpperChar d) = d ∧
      d.toNat < 128 ∧ (toUpperChar d).toNat < 128 := by
  decide

theorem map_toLowerChar_of_forall₂ (v s : List Char)
    (h : List.Forall₂ (fun c d => c = d ∨ c = toUpperChar d) v s)
    (hs : ∀ d ∈ s, d ∈ alphabet) :
    v.map toLowerChar = s ∧ v.all (fun c => decide (c.toNat < 128)) = true := by
  induction h with
  | nil => exact ⟨rfl, rfl⟩
  | @cons c d v s hcd _ ih =>
    have hd := toLowerChar_alphabet d (hs d (List.mem_cons_self _ _))
    have htl := ih (fun x hx => hs x (List.mem_cons_of_mem _ hx))
    rcases hcd with rfl | rfl
    · simp [hd.1, hd.2.2.1, htl.1, htl.2]
    · simp [hd.2.1, hd.2.2.2, htl.1, htl.2]

theorem toLowerCase_caseVariant (js : Engine) (v s : String) (h : CaseVariant v s)
    (hs : ∀ d ∈ s.data, d ∈ alphabet) : toLowerCase js v = s := by
  have hv := map_toLowerChar_of_forall₂ v.data s.data h hs
  unfold toLowerCase
  rw [if_pos hv.2, hv.1]

theorem updateStatus_ok (js : Engine) (status : JsValue) (cur : String) (st : State)
    (h : normalizeStatus js status = .ok cur) :
    updateStatus js (.ok status) st =
      { st with currentStatus := cur, dom := renderStatus cur st.dom } := by
  simp [updateStatus, updateStatusBody, h]

theorem fire_restoreLabel (due : Nat) (btn : ElemId) (text : String) (st : State) :
    ((fire ⟨due, none, .restoreLabel btn text⟩ st).dom btn).textContent = text := by
  simp [fire, Callback.run, Dom.modify, setTextContent]

/-! ## The properties -/

/-- C1: for each documented state `s` with tag field `tag`, every upper/lower-case
variant of the string `s`, and every object among whose four tag fields exactly
the field `tag` is truthy, makes `updateStatus` set `currentStatus` to `s` and to
none of the other three documented states. -/
theorem updateStatus_documented_payloads (js : Engine) (st : State) (s tag : String)
    (hs : (s, tag) ∈ documentedStates) (status : JsValue)
    (hstatus : (∃ v, status = .str v ∧ CaseVariant v s) ∨
      (∃ fields, status = .obj fields ∧
        ∀ p ∈ documentedStates, fieldTruthy status p.2 = decide (p.2 = tag))) :
    (updateStatus js (.ok status) st).currentStatus = s ∧
      ∀ p ∈ documentedStates, p.1 ≠ s →
        (updateStatus js (.ok status) st).currentStatus ≠ p.1 := by
  have key : normalizeStatus js status = .ok s := by
    rcases hstatus with ⟨v, rfl, hv⟩ | ⟨fields, rfl, hf⟩
    · have : toLowerCase js v = s := by
        apply toLowerCase_caseVariant js v s hv
        simp only [documentedStates, List.mem_cons, Prod.mk.injEq, List.mem_singleton,
          List.not_mem_nil, or_false] at hs
        rcases hs with ⟨rfl, _⟩ | ⟨rfl, _⟩ | ⟨rfl, _⟩ | ⟨rfl, _⟩ <;> decide
      simp [normalizeStatus, this]
    · have h1 := hf ("stopped", "Stopped") (by simp [documentedStates])
      have h2 := hf ("running", "Running") (by simp [documentedStates])
      have h3 := hf ("starting", "Starting") (by simp [documentedStates])
      have h4 := hf ("stopping", "Stopping") (by simp [documentedStates])
      simp only [fieldTruthy, getProp] at h1 h2 h3 h4
      simp only [documentedStates, List.mem_cons, Prod.mk.injEq, List.mem_singleton,
        List.not_mem_nil, or_false] at hs
      rcases hs with ⟨rfl, rfl⟩ | ⟨rfl, rfl⟩ | ⟨rfl, rfl⟩ | ⟨rfl, rfl⟩ <;>
        simp [normalizeStatus, getProp, Except.bind, h1, h2, h3, h4] at h1 h2 h3 h4 ⊢
  rw [updateStatus_ok js status s st key]
  exact ⟨rfl, fun p _ hp => fun h => hp h.symm⟩

/-- Witness for C1: the string `RUNNING` and an object whose only truthy tag
field is `Running` both set `currentStatus` to `running`. -/
theorem updateStatus_documented_payloads_witness :
    (updateStatus sampleEngine (.ok (.str "RUNNING"))
        (initialState stoppedPage)).currentStatus = "running" ∧
      (updateStatus sampleEngine (.ok (.obj [("Stopped", .bool false), ("Running", .obj [])]))
        (initialState stoppedPage)).currentStatus = "running" :=
  ⟨(updateStatus_documented_payloads sampleEngine (initialState stoppedPage) "running"
      "Running" (by decide)
      (.str "RUNNING") (Or.inl ⟨"RUNNING", rfl, by unfold CaseVariant; decide⟩)).1,
   (updateStatus_documented_payloads sampleEngine (initialState stoppedPage) "running"
      "Running" (by decide)
      (.obj [("Stopped", .bool false), ("Running", .obj [])])
      (Or.inr ⟨_, rfl, by decide⟩)).1⟩

/-- C2: on a display showing Running, an empty object is rendered as Stopped,
but the unrelated string `paused` sets `currentStatus` to `paused`, strips the
indicator to the bare `status-dot` and leaves the Running label, buttons and
address in place, and `null` changes nothing except for one console entry. -/
theorem updateStatus_undocumented_payloads (js : Engine) :
    (updateStatus js (.ok (.obj [])) (runningState js)).currentStatus = "stopped" ∧
      ((updateStatus js (.ok (.obj [])) (runningState js)).dom .statusText).textContent
        = "已停止" ∧
      (updateStatus js (.ok (.str "paused")) (runningState js)).currentStatus = "paused" ∧
      ((updateStatus js (.ok (.str "paused")) (runningState js)).dom .statusDot).classList
        = ["status-dot"] ∧
      ((updateStatus js (.ok (.str "paused")) (runningState js)).dom .statusText).textContent
        = "运行中" ∧
      ((updateStatus js (.ok (.str "paused")) (runningState js)).dom .stopBtn).disabled
        = false ∧
      ((updateStatus js (.ok (.str "paused")) (runningState js)).dom .address).textContent
        = "http://localhost:8080" ∧
      (updateStatus js (.ok .null) (runningState js)).currentStatus = "running" ∧
      ((updateStatus js (.ok .null) (runningState js)).dom .statusText).textContent
        = "运行中" ∧
      (updateStatus js (.ok .null) (runningState js)).console.length = 1 ∧
      (updateStatus js (.ok .null) (runningState js)).alerts = [] :=
  ⟨rfl, rfl, rfl, rfl, rfl, rfl, rfl, rfl, rfl, rfl, rfl⟩

/-- C3: whatever the display showed before, a payload that normalises to
`running` leaves the address `http://localhost:8080`, the start control
disabled, the stop control enabled, the label `运行中` and the indicator class
exactly `status-dot running`. -/
theorem updateStatus_running (js : Engine) (st : State) (status : JsValue)
    (h : normalizeStatus js status = .ok "running") :
    (updateStatus js (.ok status) st).currentStatus = "running" ∧
      ((updateStatus js (.ok status) st).dom .address).textContent
        = "http://localhost:8080" ∧
      ((updateStatus js (.ok status) st).dom .startBtn).disabled = true ∧
      ((updateStatus js (.ok status) st).dom .stopBtn).disabled = false ∧
      ((updateStatus js (.ok status) st).dom .statusText).textContent = "运行中" ∧
      ((updateStatus js (.ok status) st).dom .statusDot).classList
        = ["status-dot", "running"] := by
  rw [updateStatus_ok js status "running" st h]
  simp [renderStatus, Dom.modify, setClassName, classListAdd, setTextContent, setDisabled]

/-- Witness for C3: the payload `Running` on a display showing Stopped. -/
theorem updateStatus_running_witness :
    (updateStatus sampleEngine (.ok (.str "Running"))
        (initialState stoppedPage)).currentStatus = "running" ∧
      ((updateStatus sampleEngine (.ok (.str "Running")) (initialState stoppedPage)).dom
        .statusDot).classList = ["status-dot", "running"] :=
  have h := updateStatus_running sampleEngine (initialState stoppedPage) (.str "Running") rfl
  ⟨h.1, h.2.2.2.2.2⟩

/-- C4: whatever the display showed before, a payload that normalises to
`stopped` leaves the address empty, the start control enabled, the stop control
disabled, the label `已停止` and the indicator class exactly
`status-dot stopped`. -/
theorem updateStatus_stopped (js : Engine) (st : State) (status : JsValue)
    (h : normalizeStatus js status = .ok "stopped") :
    (updateStatus js (.ok status) st).currentStatus = "stopped" ∧
      ((updateStatus js (.ok status) st).dom .address).textContent = "" ∧
      ((updateStatus js (.ok status) st).dom .startBtn).disabled = false ∧
      ((updateStatus js (.ok status) st).dom .stopBtn).disabled = true ∧
      ((updateStatus js (.ok status) st).dom .statusText).textContent = "已停止" ∧
      ((updateStatus js (.ok status) st).dom .statusDot).classList
        = ["status-dot", "stopped"] := by
  rw [updateStatus_ok js status "stopped" st h]
  simp [renderStatus, Dom.modify, setClassName, classListAdd, setTextContent, setDisabled]

/-- Witness for C4: the payload `STOPPED` on a display showing Running. -/
theorem updateStatus_stopped_witness :
    ((updateStatus sampleEngine (.ok (.str "STOPPED")) (runningState sampleEngine)).dom
        .address).textContent = "" ∧
      ((updateStatus sampleEngine (.ok (.str "STOPPED")) (runningState sampleEngine)).dom
        .statusDot).classList = ["status-dot", "stopped"] :=
  have h := updateStatus_stopped sampleEngine (runningState sampleEngine) (.str "STOPPED") rfl
  ⟨h.2.1, h.2.2.2.2.2⟩

/-- C5: whatever the display showed before, a payload that normalises to
`starting` or to `stopping` leaves both controls disabled, the address text as
it was, the indicator class `status-dot starting` in both cases, and the label
`启动中...` for starting and `停止中...` for stopping. -/
theorem updateStatus_transitional (js : Engine) (st : State) (status : JsValue)
    (cur : String) (hcur : cur = "starting" ∨ cur = "stopping")
    (h : normalizeStatus js status = .ok cur) :
    (updateStatus js (.ok status) st).currentStatus = cur ∧
      ((updateStatus js (.ok status) st).dom .startBtn).disabled = true ∧
      ((updateStatus js (.ok status) st).dom .stopBtn).disabled = true ∧
      ((updateStatus js (.ok status) st).dom .address).textContent
        = (st.dom .address).textContent ∧
      ((updateStatus js (.ok status) st).dom .statusDot).classList
        = ["status-dot", "starting"] ∧
      ((updateStatus js (.ok status) st).dom .statusText).textContent
        = (if cur = "starting" then "启动中..." else "停止中...") := by
  rw [updateStatus_ok js status cur st h]
  rcases hcur with rfl | rfl <;>
    simp [renderStatus, Dom.modify, setClassName, classListAdd, setTextContent, setDisabled]

/-- Witness for C5: the tagged object `Stopping` on a display showing Running
keeps the address and shows the shared transitional class. -/
theorem updateStatus_transitional_witness :
    ((updateStatus sampleEngine (.ok (.obj [("Stopping", .bool true)]))
        (runningState sampleEngine)).dom .address).textContent = "http://localhost:8080" ∧
      ((updateStatus sampleEngine (.ok (.obj [("Stopping", .bool true)]))
        (runningState sampleEngine)).dom .statusDot).classList = ["status-dot", "starting"] ∧
      ((updateStatus sampleEngine (.ok (.obj [("Stopping", .bool true)]))
        (runningState sampleEngine)).dom .statusText).textContent = "停止中..." :=
  have h := updateStatus_transitional sampleEngine (runningState sampleEngine)
    (.obj [("Stopping", .bool true)]) "stopping" (Or.inr rfl) rfl
  ⟨h.2.2.2.1, h.2.2.2.2.1, h.2.2.2.2.2⟩

/-- C6: when the `get_status` call is rejected, the `try` block throws that
rejection, yet `updateStatus` completes: it raises no alert, schedules nothing,
adds one console entry, and `currentStatus` and the whole document (so all five
display fields) are what they were. -/
theorem updateStatus_rejected (js : Engine) (st : State) (e : JsValue) :
    updateStatusBody js (.error e) st = .error (.rejected e) ∧
      updateStatus js (.error e) st
        = { st with console := st.console ++ [("Status update failed:", .rejected e)] } ∧
      (updateStatus js (.error e) st).currentStatus = st.currentStatus ∧
      (updateStatus js (.error e) st).alerts = st.alerts ∧
      (updateStatus js (.error e) st).timers = st.timers ∧
      (updateStatus js (.error e) st).dom = st.dom ∧
      ((updateStatus js (.error e) st).dom .statusDot).classList
        = (st.dom .statusDot).classList ∧
      ((updateStatus js (.error e) st).dom .statusText).textContent
        = (st.dom .statusText).textContent ∧
      ((updateStatus js (.error e) st).dom .startBtn).disabled
        = (st.dom .startBtn).disabled ∧
      ((updateStatus js (.error e) st).dom .stopBtn).disabled = (st.dom .stopBtn).disabled ∧
      ((updateStatus js (.error e) st).dom .address).textContent
        = (st.dom .address).textContent :=
  ⟨rfl, rfl, rfl, rfl, rfl, rfl, rfl, rfl, rfl, rfl, rfl⟩

/-- C7, as stated, fails: when `start_service` (`stop_service`) is rejected
with the object `{"toString": "x"}`, the concatenation in the `catch` clause
throws, so `handleStart` (`handleStop`) raises no alert at all and its promise
is rejected. -/
theorem handleStart_handleStop_unconvertible :
    (handleStart sampleEngine (.error (.obj [("toString", .str "x")]))
        (runningState sampleEngine)).alerts = [] ∧
      (handleStart sampleEngine (.error (.obj [("toString", .str "x")]))
        (runningState sampleEngine)).unhandled.length = 1 ∧
      (handleStop sampleEngine (.error (.obj [("toString", .str "x")]))
        (runningState sampleEngine)).alerts = [] ∧
      (handleStop sampleEngine (.error (.obj [("toString", .str "x")]))
        (runningState sampleEngine)).unhandled.length = 1 := by
  decide

/-- C7, amended: `handleStart` (and `handleStop`) does one of three things.
When the bridge call is rejected with an `e` that converts to the string `s`,
it raises the single alert `启动失败: ` (`停止失败: `) followed by `s` and
changes nothing else; when `e` does not convert to a string, it raises no
alert, its promise is rejected and nothing else changes; when the call
resolves, it raises no alert and appends exactly one one-shot `updateStatus`
timer due 500 ms from now.  In every case the earlier timers (the periodic poll
among them) stay in place unchanged, and `currentStatus`, the document and the
console are untouched. -/
theorem handleStart_handleStop_outcomes (js : Engine) (st : State) (e v : JsValue) :
    (∀ s, e.toStr = some s →
      handleStart js (.error e) st = { st with alerts := st.alerts ++ ["启动失败: " ++ s] } ∧
      handleStop js (.error e) st = { st with alerts := st.alerts ++ ["停止失败: " ++ s] }) ∧
    (e.toStr = none →
      handleStart js (.error e) st
        = { st with unhandled := st.unhandled ++ [.cannotConvert] } ∧
      handleStop js (.error e) st
        = { st with unhandled := st.unhandled ++ [.cannotConvert] }) ∧
    handleStart js (.ok v) st
      = { st with timers := st.timers ++ [⟨st.now + 500, none, .updateStatus⟩] } ∧
    handleStop js (.ok v) st
      = { st with timers := st.timers ++ [⟨st.now + 500, none, .updateStatus⟩] } ∧
    (handleStart js (.error e) st).timers = st.timers ∧
    (handleStop js (.error e) st).timers = st.timers ∧
    (handleStart js (.ok v) st).alerts = st.alerts ∧
    (handleStop js (.ok v) st).alerts = st.alerts ∧
    (∀ r, (handleStart js r st).currentStatus = st.currentStatus ∧
      (handleStart js r st).dom = st.dom ∧ (handleStart js r st).console = st.console ∧
      st.timers <+: (handleStart js r st).timers) ∧
    (∀ r, (handleStop js r st).currentStatus = st.currentStatus ∧
      (handleStop js r st).dom = st.dom ∧ (handleStop js r st).console = st.console ∧
      st.timers <+: (handleStop js r st).timers) := by
  refine ⟨?_, ?_, rfl, rfl, ?_, ?_, rfl, rfl, ?_, ?_⟩
  · intro s hs
    simp [handleStart, handleStop, alertFailure, Thrown.toStr, hs, alert]
  · intro hs
    simp [handleStart, handleStop, alertFailure, Thrown.toStr, hs, rejectWith]
  · cases hs : e.toStr <;>
      simp [handleStart, alertFailure, Thrown.toStr, hs, alert, rejectWith]
  · cases hs : e.toStr <;>
      simp [handleStop, alertFailure, Thrown.toStr, hs, alert, rejectWith]
  · intro r
    cases r with
    | ok v => simp [handleStart, setTimeout]
    | error e =>
      cases hs : e.toStr <;>
        simp [handleStart, alertFailure, Thrown.toStr, hs, alert, rejectWith]
  · intro r
    cases r with
    | ok v => simp [handleStop, setTimeout]
    | error e =>
      cases hs : e.toStr <;>
        simp [handleStop, alertFailure, Thrown.toStr, hs, alert, rejectWith]

/-- Witness for C7: an array payload is alerted comma-joined with `null`
rendered empty, a plain object as `[object Object]`, and an array holding an
object with an own `toString` property raises no alert. -/
theorem handleStart_handleStop_outcomes_witness :
    (handleStart sampleEngine
        (.error (.arr [.null, .str "a", .arr [.num false "1", .bool true]]))
        (runningState sampleEngine)).alerts = ["启动失败: ,a,1,true"] ∧
      (handleStop sampleEngine (.error (.obj [("code", .num false "7")]))
        (runningState sampleEngine)).alerts = ["停止失败: [object Object]"] ∧
      (handleStart sampleEngine (.error (.arr [.str "a", .obj [("toString", .null)]]))
        (runningState sampleEngine)).alerts = [] :=
  ⟨congrArg State.alerts
      ((handleStart_handleStop_outcomes sampleEngine (runningState sampleEngine)
        (.arr [.null, .str "a", .arr [.num false "1", .bool true]]) .null).1
        ",a,1,true" rfl).1,
   congrArg State.alerts
      ((handleStart_handleStop_outcomes sampleEngine (runningState sampleEngine)
        (.obj [("code", .num false "7")]) .null).1 "[object Object]" rfl).2,
   congrArg State.alerts
      ((handleStart_handleStop_outcomes sampleEngine (runningState sampleEngine)
        (.arr [.str "a", .obj [("toString", .null)]]) .null).2.1 rfl).1⟩

/-- C8: after a click on the copy button (label `复制`) with `copy_address`
resolving, the continuation of `handleCopy` finds the global `event` undefined:
it raises the alert `复制失败: TypeError: ...`, the label of the button is still
`复制`, no timer has been added to the periodic poll, and the only bridge calls
are the first poll and `copy_address`. -/
theorem handleCopy_after_click (js : Engine) (a : JsValue) :
    (copyClick js a).alerts
        = ["复制失败: TypeError: " ++ js.cannotReadMessage "undefined" "target"] ∧
      ((copyClick js a).dom copyBtn).textContent = "复制" ∧
      (copyClick js a).timers = [⟨2000, some 2000, .updateStatus⟩] ∧
      (copyClick js a).invoked = [(0, "get_status"), (0, "copy_address")] ∧
      (copyClick js a).unhandled.length = 0 :=
  ⟨rfl, rfl, rfl, rfl, rfl⟩

/-- C9, as stated, fails: the second `handleCopy` run is called at time 300,
after the first run has set the label to `已复制!` and before the first run's
timer (due at 1000) has fired, and both runs succeed; but the second bridge
call settles at 1200, after that timer has restored `复制`, so the second run
captures `复制` and, once both timers have fired, the label is `复制`. -/
theorem handleCopy_late_settle :
    (secondStarted.dom copyBtn).textContent = "已复制!" ∧
      secondStarted.now = 300 ∧
      secondStarted.invoked = [(0, "get_status"), (0, "copy_address"), (300, "copy_address")] ∧
      secondStarted.timers
        = [⟨2000, some 2000, .updateStatus⟩, ⟨1000, none, .restoreLabel copyBtn "复制"⟩] ∧
      (firstRestored.dom copyBtn).textContent = "复制" ∧
      (secondCopied.dom copyBtn).textContent = "已复制!" ∧
      secondCopied.now = 1200 ∧
      secondCopied.alerts = [] ∧
      secondCopied.timers
        = [⟨2000, some 2000, .updateStatus⟩, ⟨2200, none, .restoreLabel copyBtn "复制"⟩] ∧
      (secondRestored.dom copyBtn).textContent = "复制" ∧
      (secondRestored.dom copyBtn).textContent ≠ "已复制!" ∧
      secondRestored.timers = [⟨4000, some 2000, .updateStatus⟩] := by
  decide

/-- C9, amended: when a `handleCopy` continuation succeeds on `btn` (the global
`event` denoting a click on `btn`) and a second continuation runs `dt < 1000`
ms later, so before the first run's timer fires, the second run captures
`已复制!`: the timers pending are the earlier ones, the first run's (restoring
the label `L` from before the first run) and the second run's (restoring
`已复制!`), the first being due first and not yet due.  After both have fired
in that order, with any `updateStatus` runs in between, the label is `已复制!`,
hence not `L` unless `L` was that very text. -/
theorem handleCopy_twice (js : Engine) (st : State) (btn : ElemId) (a1 a2 : JsValue)
    (dt : Nat) (hev : st.event = some btn) (hdt : dt < 1000)
    (rs1 rs2 : List (Except JsValue JsValue)) :
    ((handleCopy js (.ok a1) st).dom btn).textContent = "已复制!" ∧
      (handleCopy js (.ok a2) (elapse dt (handleCopy js (.ok a1) st))).timers
        = st.timers ++ [⟨st.now + 1000, none, .restoreLabel btn (st.dom btn).textContent⟩,
            ⟨st.now + dt + 1000, none, .restoreLabel btn "已复制!"⟩] ∧
      (handleCopy js (.ok a2) (elapse dt (handleCopy js (.ok a1) st))).alerts = st.alerts ∧
      (handleCopy js (.ok a2) (elapse dt (handleCopy js (.ok a1) st))).now < st.now + 1000 ∧
      st.now + 1000 ≤ st.now + dt + 1000 ∧
      ((fire ⟨st.now + dt + 1000, none, .restoreLabel btn "已复制!"⟩
          (polls js rs2
            (fire ⟨st.now + 1000, none, .restoreLabel btn (st.dom btn).textContent⟩
              (polls js rs1
                (handleCopy js (.ok a2)
                  (elapse dt (handleCopy js (.ok a1) st))))))).dom btn).textContent
        = "已复制!" ∧
      ((st.dom btn).textContent ≠ "已复制!" →
        ((fire ⟨st.now + dt + 1000, none, .restoreLabel btn "已复制!"⟩
          (polls js rs2
            (fire ⟨st.now + 1000, none, .restoreLabel btn (st.dom btn).textContent⟩
              (polls js rs1
                (handleCopy js (.ok a2)
                  (elapse dt (handleCopy js (.ok a1) st))))))).dom btn).textContent
          ≠ (st.dom btn).textContent) := by
  refine ⟨?_, ?_, ?_, ?_, by omega, fire_restoreLabel _ _ _ _, ?_⟩
  · simp [handleCopy, hev, setTimeout, Dom.modify, setTextContent]
  · simp [handleCopy, hev, setTimeout, elapse, Dom.modify, setTextContent]
  · simp [handleCopy, hev, setTimeout, elapse]
  · simp [handleCopy, hev, setTimeout, elapse]
    omega
  · intro hL
    rw [fire_restoreLabel]
    exact fun h => hL h.symm

/-- Witness for C9: two copies whose continuations run 300 ms apart on the
button labelled `复制`; after both timers the button still reads `已复制!`. -/
theorem handleCopy_twice_witness :
    ((fire ⟨copyEventState.now + 300 + 1000, none, .restoreLabel copyBtn "已复制!"⟩
        (polls sampleEngine []
          (fire ⟨copyEventState.now + 1000, none,
              .restoreLabel copyBtn (copyEventState.dom copyBtn).textContent⟩
            (polls sampleEngine [.ok (.str "running")]
              (handleCopy sampleEngine (.ok .null)
                (elapse 300 (handleCopy sampleEngine (.ok .null)
                  copyEventState))))))).dom copyBtn).textContent ≠ "复制" :=
  (handleCopy_twice sampleEngine copyEventState copyBtn .null .null 300 rfl (by decide)
    [.ok (.str "running")] []).2.2.2.2.2.2 (by decide)

/-- C10: a string payload whose lower-case form is none of the four documented
states makes `updateStatus` set `currentStatus` to that lower-case form and the
indicator class to the bare `status-dot`, and leaves the status label, both
controls and the address field exactly as they were. -/
theorem updateStatus_unrelated_string (js : Engine) (st : State) (s : String)
    (h : toLowerCase js s ∉ ["stopped", "running", "starting", "stopping"]) :
    (updateStatus js (.ok (.str s)) st).currentStatus = toLowerCase js s ∧
      ((updateStatus js (.ok (.str s)) st).dom .statusDot).classList = ["status-dot"] ∧
      (updateStatus js (.ok (.str s)) st).dom .statusText = st.dom .statusText ∧
      (updateStatus js (.ok (.str s)) st).dom .startBtn = st.dom .startBtn ∧
      (updateStatus js (.ok (.str s)) st).dom .stopBtn = st.dom .stopBtn ∧
      (updateStatus js (.ok (.str s)) st).dom .address = st.dom .address := by
  rw [updateStatus_ok js (.str s) (toLowerCase js s) st rfl]
  simp only [List.mem_cons, List.mem_singleton, List.not_mem_nil, or_false, not_or] at h
  obtain ⟨h1, h2, h3, h4⟩ := h
  simp [renderStatus, h1, h2, h3, h4, Dom.modify, setClassName]

/-- Witness for C10: the payload `Paused` on a display showing Running. -/
theorem updateStatus_unrelated_string_witness :
    (updateStatus sampleEngine (.ok (.str "Paused"))
        (runningState sampleEngine)).currentStatus = "paused" ∧
      ((updateStatus sampleEngine (.ok (.str "Paused")) (runningState sampleEngine)).dom
        .statusDot).classList = ["status-dot"] ∧
      (updateStatus sampleEngine (.ok (.str "Paused")) (runningState sampleEngine)).dom
        .statusText = ⟨[], "运行中", false⟩ :=
  have h := updateStatus_unrelated_string sampleEngine (runningState sampleEngine) "Paused"
    (by decide)
  ⟨h.1, h.2.1, h.2.2.1.trans (by decide)⟩

end EasyCue
